import Mathlib

/-!
# Verification of the budibase paginated data-access layer

A shallow embedding, in Lean 4, of three source files of the repository:

* `packages/frontend-core/src/fetch/QueryFetch.js` — the query fetch
  engine: feature negotiation (`determineFeatureFlags`) and the page
  fetch (`getData`);
* the Airtable integration (`AirtableIntegration`): `create`, `read`,
  `update`, `delete`, `search`, with its filter/sort translation and
  offset-style windowing;
* `packages/frontend-core/src/components/grid/stores/table.js` — the
  grid table store: the filter/sort subscription handlers installed by
  `initialise`.

JavaScript values relevant to the control flow (truthiness, `null` vs
`undefined`, strict and loose equality, string coercion) are modelled by
the inductive type `JsValue`.  Absent object properties are modelled by
`Option`, with `none` playing the role of the missing field reached
through an optional-chaining `?.` access.
-/

/-- A JavaScript value, as far as the embedded code can observe it:
primitives, `NaN`, and an opaque (truthy) object marker. -/
inductive JsValue where
  | null
  | undefined
  | nan
  | bool (b : Bool)
  | num (n : Int)
  | str (s : String)
  | obj
deriving DecidableEq, Repr

/-- JavaScript truthiness of a value. -/
def jsTruthy : JsValue → Bool
  | .null => false
  | .undefined => false
  | .nan => false
  | .bool b => b
  | .num n => n != 0
  | .str s => s != ""
  | .obj => true

/-- Truthiness of the result of an optional-chaining access:
an absent property (`none`) is `undefined`, hence falsy. -/
def optTruthy : Option JsValue → Bool
  | none => false
  | some v => jsTruthy v

/-- `x || d` for `x` the result of an optional-chaining access. -/
def jsOr (x : Option JsValue) (d : JsValue) : JsValue :=
  match x with
  | none => d
  | some v => if jsTruthy v then v else d

/-- `x != null` (loose): false exactly on `null` and `undefined`. -/
def jsLooseNeNull (v : JsValue) : Bool :=
  !(v == .null || v == .undefined)

/-- `parseInt` as the embedded code uses it: on an integer it is the
identity, on a string it parses an optionally signed run of digits
(`String.toInt?`; the model covers fully numeric strings), anything
else is `NaN`. -/
def jsParseInt : JsValue → JsValue
  | .num n => .num n
  | .str s =>
    match s.toInt? with
    | some n => .num n
    | none => .nan
  | _ => .nan

/-- `+ 1` on a pagination page value: defined on numbers, `NaN`
otherwise (the embedded code only applies it to `parseInt` results). -/
def jsAddOne : JsValue → JsValue
  | .num n => .num (n + 1)
  | _ => .nan

/-- String coercion of a value interpolated into a template literal. -/
def jsToString : JsValue → String
  | .null => "null"
  | .undefined => "undefined"
  | .nan => "NaN"
  | .bool b => if b then "true" else "false"
  | .num n => toString n
  | .str s => s
  | .obj => "[object Object]"

/-! ## QueryFetch: feature negotiation -/

/-- The `pagination` object of a query definition's `fields`:
`type`, `location` and `pageParam`, each possibly absent. -/
structure PaginationMeta where
  type : Option JsValue := none
  location : Option JsValue := none
  pageParam : Option JsValue := none
deriving DecidableEq, Repr

/-- The `fields` object of a query definition. -/
structure DefinitionFields where
  pagination : Option PaginationMeta := none
deriving DecidableEq, Repr

/-- A query definition as `QueryFetch` reads it. -/
structure QueryDefinition where
  fields : Option DefinitionFields := none
deriving DecidableEq, Repr

/-- The feature descriptor returned by feature negotiation. -/
structure FeatureFlags where
  supportsPagination : Bool
deriving DecidableEq, Repr

/-- `QueryFetch.determineFeatureFlags`:
`supportsPagination` is the conjunction of the truthiness of
`definition?.fields?.pagination?.type`, `...?.location` and
`...?.pageParam`. -/
def determineFeatureFlags (definition : Option QueryDefinition) : FeatureFlags :=
  let pag := (definition.bind QueryDefinition.fields).bind DefinitionFields.pagination
  { supportsPagination :=
      optTruthy (pag.bind PaginationMeta.type) &&
      optTruthy (pag.bind PaginationMeta.location) &&
      optTruthy (pag.bind PaginationMeta.pageParam) }

/-! ## Claims about feature negotiation -/

/-- **C1.** `determineFeatureFlags` returns `supportsPagination = true`
exactly when the definition is present, has `fields`, has a
`pagination` object, and that object declares (holds a truthy value
for) all three of `type`, `location` and `pageParam`; whenever any link
of that chain is absent the result is `supportsPagination = false`, and
the function is total — it never fails on missing fields. -/
theorem determineFeatureFlags_supportsPagination_iff
    (d : Option QueryDefinition) :
    (determineFeatureFlags d).supportsPagination = true ↔
      ∃ defn flds pag, d = some defn ∧ defn.fields = some flds ∧
        flds.pagination = some pag ∧
        optTruthy pag.type = true ∧ optTruthy pag.location = true ∧
        optTruthy pag.pageParam = true := by
  constructor
  · intro h
    match d with
    | none => simp [determineFeatureFlags, optTruthy] at h
    | some defn =>
      match hf : defn.fields with
      | none => simp [determineFeatureFlags, hf, optTruthy] at h
      | some flds =>
        match hp : flds.pagination with
        | none => simp [determineFeatureFlags, hf, hp, optTruthy] at h
        | some pag =>
          simp only [determineFeatureFlags, Option.some_bind, hf, hp,
            Bool.and_eq_true] at h
          exact ⟨defn, flds, pag, rfl, hf, hp, h.1.1, h.1.2, h.2⟩
  · rintro ⟨defn, flds, pag, rfl, hf, hp, h1, h2, h3⟩
    simp [determineFeatureFlags, hf, hp, h1, h2, h3]

/-! ## QueryFetch: getData -/

/-- An entry of a datasource's `parameters` list: a parameter name and
its default value. -/
structure QueryParamDecl where
  name : String
  dflt : JsValue
deriving DecidableEq, Repr

/-- The datasource held in the fetch options, with the fields `getData`
reads: `_id`, `parameters` and `queryParams`.  `parameters := none`
models an absent property, for which the source falls back to `{}` —
a plain object, which `for…of` cannot iterate. -/
structure Datasource where
  _id : Option JsValue := none
  parameters : Option (List QueryParamDecl) := none
  queryParams : Option (List (String × JsValue)) := none
deriving DecidableEq, Repr

/-- The fetch options `getData` destructures. -/
structure FetchOptions where
  datasource : Option Datasource := none
  limit : Int := 10
  paginate : Bool := true
deriving DecidableEq, Repr

/-- The store state `getData` reads: current cursor and definition. -/
structure StoreState where
  cursor : Option JsValue := none
  definition : Option QueryDefinition := none
deriving DecidableEq, Repr

/-- The definition structure is extended with the pagination chain used
by `getData`: `definition?.fields?.pagination?.type`. -/
def definitionPaginationType (st : StoreState) : Option JsValue :=
  (((st.definition.bind QueryDefinition.fields).bind
    DefinitionFields.pagination).bind PaginationMeta.type)

/-- The `pagination` object attached to the query payload. -/
structure PaginationPayload where
  page : JsValue
  limit : Int
deriving DecidableEq, Repr

/-- The payload handed to `API.executeQuery`. -/
structure QueryPayload where
  queryId : Option JsValue
  parameters : List (String × JsValue)
  pagination : Option PaginationPayload := none
deriving DecidableEq, Repr

/-- The `pagination` object of an `executeQuery` response. -/
structure ResponsePagination where
  cursor : Option JsValue := none
deriving DecidableEq, Repr

/-- An `executeQuery` response: `data`, `pagination` and the rest. -/
structure QueryResponse where
  data : Option (List JsValue) := none
  pagination : Option ResponsePagination := none
  rest : List (String × JsValue) := []
deriving DecidableEq, Repr

/-- The page result `getData` resolves with.  The error path of the
source returns an object with only `rows` and `hasNextPage`, modelled
by `info := none` and `cursor := none`. -/
structure PageResult where
  rows : List JsValue
  info : Option (List (String × JsValue)) := none
  cursor : Option JsValue := none
  hasNextPage : Bool
deriving DecidableEq, Repr

/-- A thrown JavaScript error: the `TypeError` raised by `for…of` over
a non-iterable, or a failure carrying a message. -/
inductive JsError where
  | notIterable
  | failure (msg : String)
deriving DecidableEq, Repr

/-- Property lookup in the `parameters` accumulation object. -/
def lookupJs (m : List (String × JsValue)) (k : String) : Option JsValue :=
  (m.find? (fun kv => kv.1 == k)).map Prod.snd

/-- Property assignment in the `parameters` accumulation object. -/
def setJs (m : List (String × JsValue)) (k : String) (v : JsValue) :
    List (String × JsValue) :=
  if (m.find? (fun kv => kv.1 == k)).isSome then
    m.map (fun kv => if kv.1 == k then (k, v) else kv)
  else
    m ++ [(k, v)]

/-- `QueryFetch.getData`.  The network call is abstracted by `exec`,
which maps the built payload to the outcome of `API.executeQuery`;
a thrown error on that call corresponds to the `catch` branch.  The
construction phase is outside the `try`, so the `TypeError` thrown by
`for (let param of datasource?.parameters || {})` when `parameters` is
absent escapes to the caller, modelled by `Except.error .notIterable`. -/
def getData (opts : FetchOptions) (features : FeatureFlags) (st : StoreState)
    (exec : QueryPayload → Except JsError QueryResponse) :
    Except JsError PageResult :=
  let limit := opts.limit
  let paginate := opts.paginate
  let supportsPagination := features.supportsPagination
  let cursor := st.cursor
  let type := definitionPaginationType st
  -- Set the default query params (cloneDeep is identity on the model)
  let base := (opts.datasource.bind Datasource.queryParams).getD []
  match opts.datasource.bind Datasource.parameters with
  | none => .error .notIterable
  | some ps =>
    let parameters := ps.foldl
      (fun m p => if optTruthy (lookupJs m p.name) then m else setJs m p.name p.dflt)
      base
    -- Add pagination to query if supported
    let requestCursor : JsValue :=
      if type == some (.str "page") then jsParseInt (jsOr cursor (.num 1))
      else cursor.getD .null
    let pagination : Option PaginationPayload :=
      if paginate && supportsPagination then
        some { page := requestCursor, limit := limit }
      else none
    let payload : QueryPayload :=
      { queryId := opts.datasource.bind Datasource._id
        parameters := parameters
        pagination := pagination }
    -- Execute query
    match exec payload with
    | .error _ => .ok { rows := [], hasNextPage := false }
    | .ok res =>
      -- Derive pagination info from response
      let respCursor : JsValue :=
        (res.pagination.bind ResponsePagination.cursor).getD .undefined
      let nextCursor : Option JsValue :=
        if paginate && supportsPagination then
          if type == some (.str "page") then some (jsAddOne requestCursor)
          else some respCursor
        else some .null
      let hasNextPage : Bool :=
        if paginate && supportsPagination then
          if type == some (.str "page") then
            (match res.data with
             | some d => decide ((d.length : Int) = limit)
             | none => false) && decide (0 < limit)
          else jsLooseNeNull respCursor
        else false
      .ok { rows := res.data.getD []
            info := some res.rest
            cursor := nextCursor
            hasNextPage := hasNextPage }

/-! ## Claims about getData -/

/-- **C2.** With pagination supported and enabled and a page-kind
definition, every successful `getData` call returns `hasNextPage = true`
exactly when the number of returned rows equals the configured limit
and the limit is positive; the returned cursor is the current page plus
one, both for a numeric current cursor `p ≠ 0` and for the absent
cursor, whose current page defaults to 1. -/
theorem getData_page_hasNextPage
    (opts : FetchOptions) (features : FeatureFlags) (st : StoreState)
    (exec : QueryPayload → Except JsError QueryResponse)
    (res : QueryResponse) (ps : List QueryParamDecl) (p : Int)
    (hps : opts.datasource.bind Datasource.parameters = some ps)
    (hsup : features.supportsPagination = true)
    (hpag : opts.paginate = true)
    (htype : definitionPaginationType st = some (.str "page"))
    (hexec : ∀ q, exec q = .ok res) :
    ∃ r, getData opts features st exec = .ok r ∧
      (r.hasNextPage = true ↔
        ((r.rows.length : Int) = opts.limit ∧ 0 < opts.limit)) ∧
      (st.cursor = some (.num p) → p ≠ 0 → r.cursor = some (.num (p + 1))) ∧
      (st.cursor = none → r.cursor = some (.num (1 + 1))) := by
  simp only [getData, hps, hsup, hpag, htype, hexec]
  refine ⟨_, rfl, ?_, ?_, ?_⟩
  · simp only [Bool.and_eq_true, decide_eq_true_eq]
    cases hd : res.data with
    | none =>
      simp [hd]
      omega
    | some d => simp [hd]
  · intro hc hp
    simp [hc, jsOr, jsTruthy, jsParseInt, jsAddOne, hp]
  · intro hc
    simp [hc, jsOr, jsParseInt, jsAddOne]

def dsW2 : Datasource := { _id := some (.str "q2"), parameters := some [] }

def optsW2 : FetchOptions := { datasource := some dsW2, limit := 2, paginate := true }

def pagMetaW2 : PaginationMeta :=
  { type := some (.str "page"), location := some (.str "query"),
    pageParam := some (.str "page") }

def stW2 : StoreState :=
  { cursor := some (.num 3),
    definition := some { fields := some { pagination := some pagMetaW2 } } }

def resW2 : QueryResponse := { data := some [.num 10, .num 11] }

def execW2 : QueryPayload → Except JsError QueryResponse := fun _ => .ok resW2

/-- Witness for C2: at page 3 with limit 2 and a 2-row response, the
next cursor is 4 and `hasNextPage` agrees with the row-count test. -/
theorem getData_page_hasNextPage_witness :
    ∃ r, getData optsW2 ⟨true⟩ stW2 execW2 = .ok r ∧
      (r.hasNextPage = true ↔
        ((r.rows.length : Int) = optsW2.limit ∧ 0 < optsW2.limit)) ∧
      (stW2.cursor = some (.num 3) → (3 : Int) ≠ 0 →
        r.cursor = some (.num (3 + 1))) ∧
      (stW2.cursor = none → r.cursor = some (.num (1 + 1))) :=
  getData_page_hasNextPage optsW2 ⟨true⟩ stW2 execW2 resW2 [] 3
    rfl rfl rfl rfl (fun _ => rfl)

/-- The claim's notion of a present cursor: non-null and non-empty.
The source instead tests `nextCursor != null`, which an empty string
passes; this definition follows the claim's words so that the two can
be compared. -/
def cursorPresentNonEmpty : JsValue → Bool
  | .null => false
  | .undefined => false
  | .str s => s != ""
  | _ => true

def dsC3 : Datasource := { _id := some (.str "query-1"), parameters := some [] }

def optsC3 : FetchOptions := { datasource := some dsC3, limit := 10, paginate := true }

def pagMetaC3 : PaginationMeta :=
  { type := some (.str "cursor"), location := some (.str "body"),
    pageParam := some (.str "cursor") }

def stC3 : StoreState :=
  { cursor := none,
    definition := some { fields := some { pagination := some pagMetaC3 } } }

def resC3 : QueryResponse :=
  { data := some [], pagination := some { cursor := some (.str "") }, rest := [] }

def execC3 : QueryPayload → Except JsError QueryResponse := fun _ => .ok resC3

/-- **C3, counterexample.** With cursor-kind pagination and a backend
response whose cursor is the empty string, `getData` returns
`hasNextPage = true`, while the claim's "present (non-null and
non-empty)" test calls the empty string absent: `hasNextPage` is not
equivalent to the claim's predicate. -/
theorem getData_cursor_empty_string_counterexample :
    (getData optsC3 ⟨true⟩ stC3 execC3 =
      .ok { rows := [], info := some [], cursor := some (.str ""),
            hasNextPage := true }) ∧
    cursorPresentNonEmpty (.str "") = false :=
  ⟨rfl, rfl⟩

/-- **C3, amended.** With pagination supported and enabled and a
cursor-kind definition, a successful `getData` returns as cursor
exactly the cursor value of the backend response (`undefined` when the
response carries none), and `hasNextPage` is true exactly when that
value is neither `null` nor `undefined` — an empty-string cursor counts
as present. -/
theorem getData_cursor_pagination
    (opts : FetchOptions) (features : FeatureFlags) (st : StoreState)
    (exec : QueryPayload → Except JsError QueryResponse)
    (res : QueryResponse) (ps : List QueryParamDecl)
    (hps : opts.datasource.bind Datasource.parameters = some ps)
    (hsup : features.supportsPagination = true)
    (hpag : opts.paginate = true)
    (htype : definitionPaginationType st = some (.str "cursor"))
    (hexec : ∀ q, exec q = .ok res) :
    ∃ r, getData opts features st exec = .ok r ∧
      r.cursor = some ((res.pagination.bind ResponsePagination.cursor).getD .undefined) ∧
      r.hasNextPage =
        jsLooseNeNull ((res.pagination.bind ResponsePagination.cursor).getD .undefined) := by
  simp only [getData, hps, hsup, hpag, htype, hexec]
  exact ⟨_, rfl, rfl, rfl⟩

/-- Witness for the amended C3: a concrete cursor-kind fetch whose
response cursor is the empty string. -/
theorem getData_cursor_pagination_witness :
    ∃ r, getData optsC3 ⟨true⟩ stC3 execC3 = .ok r ∧
      r.cursor = some ((resC3.pagination.bind ResponsePagination.cursor).getD .undefined) ∧
      r.hasNextPage =
        jsLooseNeNull ((resC3.pagination.bind ResponsePagination.cursor).getD .undefined) :=
  getData_cursor_pagination optsC3 ⟨true⟩ stC3 execC3 resC3 []
    rfl rfl rfl rfl (fun _ => rfl)

/-- **C4.** When the dispatched request fails — the execution service
throws, whatever the error — `getData` swallows the failure and
resolves with the empty page result `{rows := [], hasNextPage := false}`
(no `info`, no `cursor`), for every option set whose datasource carries
a parameters list. -/
theorem getData_failure_returns_empty
    (opts : FetchOptions) (features : FeatureFlags) (st : StoreState)
    (exec : QueryPayload → Except JsError QueryResponse)
    (ps : List QueryParamDecl) (e : JsError)
    (hps : opts.datasource.bind Datasource.parameters = some ps)
    (hexec : ∀ q, exec q = .error e) :
    getData opts features st exec = .ok { rows := [], hasNextPage := false } := by
  simp only [getData, hps, hexec]

/-- Witness for C4: a failing request yields the empty page result. -/
theorem getData_failure_returns_empty_witness :
    getData optsW2 ⟨true⟩ stW2 (fun _ => .error (.failure "network down")) =
      .ok { rows := [], hasNextPage := false } :=
  getData_failure_returns_empty optsW2 ⟨true⟩ stW2
    (fun _ => .error (.failure "network down")) [] (.failure "network down")
    rfl (fun _ => rfl)

def dsC10 : Datasource := { _id := some (.str "query-2") }

def optsC10 : FetchOptions := { datasource := some dsC10, limit := 10, paginate := true }

/-- **C10.** When the datasource's `parameters` list is absent, the
iteration source defaults to `{}`, a plain object that `for…of` cannot
iterate: request construction throws a `TypeError` before the request
is dispatched, and `getData` does not return a page result — contrary
to the claim that it always completes.  The execution service is never
reached (here it would succeed). -/
theorem getData_missing_parameters_throws :
    getData optsC10 ⟨true⟩ {} (fun _ => .ok {}) = .error .notIterable := rfl

/-! ## Airtable integration -/

/-- A sort directive emitted to the Airtable client. -/
structure SortDirective where
  field : String
  direction : String
deriving DecidableEq, Repr

/-- The `sort` object inside the search pagination parameters. -/
structure SortSpec where
  column : Option String := none
  order : Option String := none
deriving DecidableEq, Repr

/-- The pagination object of the generic search parameters; `read`
consumes its `bookmark` and `limit`.  The bookmark is modelled already
parsed (`parseInt(bookmark ?? "1")`), absent meaning the default 1. -/
structure SearchPagination where
  sort : Option SortSpec := none
  bookmark : Option Int := none
  limit : Option Nat := none
deriving DecidableEq, Repr

/-- The generic filter set: the equality filters, as the ordered entry
list of the `equal` object. -/
structure SearchFilters where
  equal : Option (List (String × JsValue)) := none
deriving DecidableEq, Repr

/-- The generic search parameters handed to `AirtableIntegration.search`. -/
structure AirtableSearchParams where
  pagination : Option SearchPagination := none
  filters : Option SearchFilters := none
deriving DecidableEq, Repr

/-- The query object `search` builds and passes on to `read`: the
original query possibly extended with `sort`, `filterByFormula` and
`pagination`. -/
structure ReadQuery where
  sort : Option (List SortDirective) := none
  filterByFormula : Option String := none
  pagination : Option SearchPagination := none
deriving DecidableEq, Repr

/-- Truthiness of an optionally-chained string. -/
def strOptTruthy : Option String → Bool
  | none => false
  | some s => s != ""

/-- `order?.toLowerCase().replace("ending", "")`.  (`String.replace`
replaces every occurrence where the source replaces the first; the two
agree on order words, where "ending" occurs at most once.) -/
def normalizeOrder (o : String) : String :=
  (o.toLower).replace "ending" ""

/-- `s.substring(0, s.length - 1)`: the string without its last
character. -/
def strDropLast (s : String) : String := String.mk s.toList.dropLast

/-- `AirtableIntegration.search`, up to the final `read` call: the
translation of generic sort, equality-filter and pagination parameters
into the query object handed to `read`. -/
def searchQuery (oq : ReadQuery) (params : AirtableSearchParams) : ReadQuery :=
  let sortOrder :=
    ((params.pagination.bind SearchPagination.sort).bind SortSpec.order).map normalizeOrder
  let sortColumn := (params.pagination.bind SearchPagination.sort).bind SortSpec.column
  let q1 :=
    if strOptTruthy sortOrder && strOptTruthy sortColumn then
      { oq with sort := some [{ field := sortColumn.getD ""
                                direction := sortOrder.getD "" }] }
    else oq
  let entries := (params.filters.bind SearchFilters.equal).getD []
  let formula := entries.foldl
    (fun acc kv => acc ++ (kv.1 ++ "='" ++ jsToString kv.2 ++ "',")) ""
  let q2 :=
    if 0 < formula.length then
      let stripped := strDropLast formula
      let wrapped := if 1 < entries.length then "AND(" ++ stripped ++ ")" else stripped
      { q1 with filterByFormula := some wrapped }
    else q1
  { q2 with pagination := params.pagination }

/-- The formula emitted for one equality pair: `key='value'`. -/
def filterPair (kv : String × JsValue) : String :=
  kv.1 ++ "='" ++ jsToString kv.2 ++ "'"

/-- Comma-separated join of a list of formulas. -/
def commaJoin : List String → String
  | [] => ""
  | [x] => x
  | x :: y :: rest => x ++ "," ++ commaJoin (y :: rest)

/-- Concatenation of a list of strings. -/
def concatAll : List String → String
  | [] => ""
  | x :: rest => x ++ concatAll rest

theorem filterPair_comma (kv : String × JsValue) :
    filterPair kv ++ "," = kv.1 ++ "='" ++ jsToString kv.2 ++ "'," := by
  show (kv.1 ++ "='" ++ jsToString kv.2 ++ "'") ++ "," = _
  rw [String.append_assoc (kv.1 ++ "='" ++ jsToString kv.2) "'" ","]
  rfl

theorem foldFormula_eq (entries : List (String × JsValue)) (acc : String) :
    entries.foldl (fun acc kv => acc ++ (kv.1 ++ "='" ++ jsToString kv.2 ++ "',")) acc =
      acc ++ concatAll (entries.map (fun kv => filterPair kv ++ ",")) := by
  induction entries generalizing acc with
  | nil => simp [concatAll]
  | cons kv rest ih =>
    simp only [List.foldl_cons, List.map_cons, concatAll, ih, filterPair_comma]
    rw [String.append_assoc]

theorem concatAll_comma (l : List String) (h : l ≠ []) :
    concatAll (l.map (fun x => x ++ ",")) = commaJoin l ++ "," := by
  induction l with
  | nil => exact absurd rfl h
  | cons x xs ih =>
    cases xs with
    | nil => simp [concatAll, commaJoin]
    | cons y ys =>
      simp only [List.map_cons, concatAll, commaJoin] at ih ⊢
      rw [ih (by simp), ← String.append_assoc]

theorem strDropLast_append_comma (s : String) : strDropLast (s ++ ",") = s := by
  show String.mk (s ++ ",").data.dropLast = s
  rw [String.data_append]
  show String.mk (s.data ++ [',']).dropLast = s
  rw [List.dropLast_concat]

theorem length_append_comma_pos (s : String) : 0 < (s ++ ",").length := by
  have h1 : ("," : String).length = 1 := rfl
  rw [String.length_append, h1]
  omega

/-- **C5.** The equality-filter set is translated by `search` into
`filterByFormula`: an empty set emits no formula, a single pair
`(k, v)` emits the unwrapped formula `k='v'`, and two or more pairs
emit the pair formulas joined by commas inside a single `AND(...)`
combinator. -/
theorem search_equality_filter_translation
    (oq : ReadQuery) (params : AirtableSearchParams)
    (entries : List (String × JsValue))
    (h0 : oq.filterByFormula = none)
    (he : params.filters.bind SearchFilters.equal = some entries) :
    (searchQuery oq params).filterByFormula =
      match entries with
      | [] => none
      | [kv] => some (filterPair kv)
      | kv1 :: kv2 :: rest =>
        some ("AND(" ++ commaJoin ((kv1 :: kv2 :: rest).map filterPair) ++ ")") := by
  match entries with
  | [] =>
    simp only [searchQuery, he, Option.getD_some, List.foldl_nil]
    have hlen : ¬ (0 < ("" : String).length) := by decide
    rw [if_neg hlen]
    split <;> simp [h0]
  | [kv] =>
    simp only [searchQuery, he, Option.getD_some]
    rw [foldFormula_eq, String.empty_append]
    have hconc : concatAll ([kv].map (fun kv => filterPair kv ++ ",")) =
        filterPair kv ++ "," := by
      simp [concatAll, String.append_empty]
    rw [hconc, if_pos (length_append_comma_pos _)]
    have h1 : ¬ (1 < ([kv] : List (String × JsValue)).length) := by simp
    rw [if_neg h1, strDropLast_append_comma]
  | kv1 :: kv2 :: rest =>
    simp only [searchQuery, he, Option.getD_some]
    rw [foldFormula_eq, String.empty_append]
    have hmap : (kv1 :: kv2 :: rest).map (fun kv => filterPair kv ++ ",") =
        ((kv1 :: kv2 :: rest).map filterPair).map (fun x => x ++ ",") := by
      rw [List.map_map]
      rfl
    have hconc : concatAll ((kv1 :: kv2 :: rest).map (fun kv => filterPair kv ++ ",")) =
        commaJoin ((kv1 :: kv2 :: rest).map filterPair) ++ "," := by
      rw [hmap, concatAll_comma _ (by simp)]
    rw [hconc, if_pos (length_append_comma_pos _)]
    have h2 : 1 < (kv1 :: kv2 :: rest).length := by simp
    rw [if_pos h2, strDropLast_append_comma]

def paramsW5 : AirtableSearchParams :=
  { filters := some { equal := some [("a", .num 1), ("b", .num 2)] } }

/-- Witness for C5: the two-pair filter set `{a: 1, b: 2}` translates
to `AND(a='1',b='2')`. -/
theorem search_equality_filter_translation_witness :
    (searchQuery {} paramsW5).filterByFormula =
      some ("AND(" ++
        commaJoin ([(("a" : String), JsValue.num 1),
                    (("b" : String), JsValue.num 2)].map filterPair) ++ ")") :=
  search_equality_filter_translation {} paramsW5
    [("a", .num 1), ("b", .num 2)] rfl rfl

/-! ## Airtable integration: read -/

/-- An Airtable record, of which the integration reads only `fields`. -/
structure ARecord where
  fields : JsValue
deriving DecidableEq, Repr

/-- `Array.prototype.slice(start, end)` on a row list, for nonnegative
indices as the embedded code produces. -/
def jsSlice (l : List JsValue) (s e : Nat) : List JsValue := (l.take e).drop s

/-- The windowing step of `AirtableIntegration.read` (`processRecords`):
`bookmark = parseInt(pagination?.bookmark ?? "1")` (the model carries
the bookmark already parsed), `limit = pagination?.limit || 100`,
`page = bookmark <= 1 ? 1 : bookmark`, `offset = page*limit - limit`,
then `.map(({fields}) => fields).slice(offset, limit*page)` over the
records collected across every backend continuation page. -/
def readWindow (records : List ARecord) (pag : Option SearchPagination) :
    List JsValue :=
  let bookmark : Int := (pag.bind SearchPagination.bookmark).getD 1
  let limit : Nat :=
    match pag.bind SearchPagination.limit with
    | some l => if l = 0 then 100 else l
    | none => 100
  let page : Nat := if bookmark ≤ 1 then 1 else bookmark.toNat
  let offset : Nat := page * limit - limit
  jsSlice (records.map ARecord.fields) offset (limit * page)

/-- The caller-visible window as the claim words it: the slice over
`[offset, offset + limit*page)` with the same `offset`, `limit` and
`page`.  Kept apart from `readWindow`, which follows the source, so the
two can be compared. -/
def readWindowClaimed (records : List ARecord) (pag : Option SearchPagination) :
    List JsValue :=
  let bookmark : Int := (pag.bind SearchPagination.bookmark).getD 1
  let limit : Nat :=
    match pag.bind SearchPagination.limit with
    | some l => if l = 0 then 100 else l
    | none => 100
  let page : Nat := if bookmark ≤ 1 then 1 else bookmark.toNat
  let offset : Nat := page * limit - limit
  jsSlice (records.map ARecord.fields) offset (offset + limit * page)

/-- `AirtableIntegration.read`: the select outcome, windowed; a thrown
request error is caught and the empty list is returned instead. -/
def airtableRead (clientResult : Except JsError (List ARecord))
    (pag : Option SearchPagination) : List JsValue :=
  match clientResult with
  | .error _ => []
  | .ok records => readWindow records pag

def recordsC6 : List ARecord := [⟨.num 0⟩, ⟨.num 1⟩, ⟨.num 2⟩]

def pagC6 : Option SearchPagination := some { bookmark := some 2, limit := some 1 }

/-- **C6, counterexample.** With three collected rows, bookmark 2 and
limit 1, the source slices `[offset, limit*page) = [1, 2)` and returns
one row, while the claim's interval `[offset, offset + limit*page)
= [1, 3)` would return two: the claimed window differs from the code's. -/
theorem read_slice_counterexample :
    readWindow recordsC6 pagC6 = [.num 1] ∧
    readWindowClaimed recordsC6 pagC6 = [.num 1, .num 2] ∧
    readWindow recordsC6 pagC6 ≠ readWindowClaimed recordsC6 pagC6 := by
  refine ⟨rfl, rfl, ?_⟩
  decide

/-- **C6, amended.** For a read with bookmark `b ≥ 1` and positive
limit `l`, the caller-visible window is the slice of the collected
(field-mapped) rows over `[offset, limit*page)` — that is, the `l` rows
starting at `offset = limit*page - limit = (b-1)*l` — not the claim's
`[offset, offset + limit*page)`. -/
theorem read_window_amended (records : List ARecord) (b : Int) (l : Nat)
    (hb : 1 ≤ b) (hl : 0 < l) :
    readWindow records (some { bookmark := some b, limit := some l }) =
      ((records.map ARecord.fields).drop ((b.toNat - 1) * l)).take l := by
  have hpage : (if b ≤ 1 then (1 : Nat) else b.toNat) = b.toNat := by
    split <;> omega
  simp only [readWindow, Option.some_bind, Option.getD_some, jsSlice, hpage]
  rw [if_neg (by omega : ¬ l = 0)]
  set n := b.toNat with hn
  have hn1 : 1 ≤ n := by omega
  have hle : l ≤ n * l := by
    calc l = 1 * l := (Nat.one_mul l).symm
    _ ≤ n * l := Nat.mul_le_mul_right l hn1
  rw [List.drop_take]
  have e1 : l * n - (n * l - l) = l := by
    rw [Nat.mul_comm l n, Nat.sub_sub_self hle]
  have e2 : n * l - l = (n - 1) * l := by
    rw [Nat.sub_mul, Nat.one_mul]
  rw [e1, e2]

def recordsW6 : List ARecord := [⟨.num 5⟩, ⟨.num 6⟩, ⟨.num 7⟩, ⟨.num 8⟩]

/-- Witness for the amended C6: bookmark 2, limit 2 over four rows
yields the second pair of rows. -/
theorem read_window_amended_witness :
    readWindow recordsW6 (some { bookmark := some 2, limit := some 2 }) =
      ((recordsW6.map ARecord.fields).drop (((2 : Int).toNat - 1) * 2)).take 2 :=
  read_window_amended recordsW6 2 2 (by decide) (by decide)

/-- **C9.** When the underlying request throws inside `read`, the
caller receives the empty sequence, whatever the error and the
pagination parameters. -/
theorem read_error_returns_empty (e : JsError) (pag : Option SearchPagination) :
    airtableRead (.error e) pag = [] := rfl

/-! ## Airtable integration: mutations -/

/-- The entry `create` sends to the client: `[{fields: json}]`. -/
structure CreateEntry where
  fields : JsValue
deriving DecidableEq, Repr

/-- The entry `update` sends to the client: `[{id, fields: json}]`. -/
structure UpdateEntry where
  id : JsValue
  fields : JsValue
deriving DecidableEq, Repr

/-- `AirtableIntegration.create`: builds `[{fields: json}]` and calls
the client; on failure the error is logged (no effect on the model)
and re-thrown. -/
def airtableCreate (client : List CreateEntry → Except JsError JsValue)
    (json : JsValue) : Except JsError JsValue :=
  match client [{ fields := json }] with
  | .ok r => .ok r
  | .error e => .error e

/-- `AirtableIntegration.update`: builds `[{id, fields: json}]` and
calls the client; on failure the error is logged and re-thrown. -/
def airtableUpdate (client : List UpdateEntry → Except JsError JsValue)
    (id json : JsValue) : Except JsError JsValue :=
  match client [{ id := id, fields := json }] with
  | .ok r => .ok r
  | .error e => .error e

/-- `AirtableIntegration.delete`: calls `destroy(id)` on the client; on
failure the error is logged and re-thrown. -/
def airtableDelete (client : JsValue → Except JsError JsValue)
    (id : JsValue) : Except JsError JsValue :=
  match client id with
  | .ok r => .ok r
  | .error e => .error e

/-- **C8.** When the client operation underlying `create`, `update` or
`delete` fails, the adapter re-throws that very error to the caller:
none of the mutating operations swallows a failure. -/
theorem mutations_rethrow
    (cc : List CreateEntry → Except JsError JsValue)
    (uc : List UpdateEntry → Except JsError JsValue)
    (dc : JsValue → Except JsError JsValue)
    (json uid did : JsValue) (e1 e2 e3 : JsError)
    (h1 : cc [{ fields := json }] = .error e1)
    (h2 : uc [{ id := uid, fields := json }] = .error e2)
    (h3 : dc did = .error e3) :
    airtableCreate cc json = .error e1 ∧
    airtableUpdate uc uid json = .error e2 ∧
    airtableDelete dc did = .error e3 := by
  simp [airtableCreate, airtableUpdate, airtableDelete, h1, h2, h3]

/-- Witness for C8: failing clients propagate their errors through all
three mutating operations. -/
theorem mutations_rethrow_witness :
    airtableCreate (fun _ => .error (.failure "create failed")) (.str "x") =
      .error (.failure "create failed") ∧
    airtableUpdate (fun _ => .error (.failure "update failed")) (.str "rec1") (.str "y") =
      .error (.failure "update failed") ∧
    airtableDelete (fun _ => .error (.failure "delete failed")) (.str "rec2") =
      .error (.failure "delete failed") :=
  mutations_rethrow
    (fun _ => .error (.failure "create failed"))
    (fun _ => .error (.failure "update failed"))
    (fun _ => .error (.failure "delete failed"))
    (.str "x") (.str "rec1") (.str "rec2")
    (.failure "create failed") (.failure "update failed") (.failure "delete failed")
    rfl rfl rfl

/-! ## Grid table store: subscription handlers -/

/-- The datasource reference inside a fetch instance's options. -/
structure DsRef where
  tableId : Option String := none
deriving DecidableEq, Repr

/-- The options of a fetch instance, as the handlers chain into them. -/
structure FetchOptsRef where
  datasource : Option DsRef := none
deriving DecidableEq, Repr

/-- The part of a fetch instance the table store's handlers touch: its
options and the query state its `update` entry point mutates. -/
structure GridFetchState where
  options : Option FetchOptsRef := none
  filter : List JsValue := []
  sortOrder : JsValue := .str "ascending"
  sortColumn : JsValue := .null
deriving DecidableEq, Repr

/-- `$fetch?.options?.datasource?.tableId`. -/
def fetchTableId (f : Option GridFetchState) : Option String :=
  ((f.bind GridFetchState.options).bind FetchOptsRef.datasource).bind DsRef.tableId

/-- The sort store value `{column, order}`. -/
structure SortState where
  column : JsValue := .null
  order : JsValue := .null
deriving DecidableEq, Repr

/-- The filter-subscription handler `initialise` installs for a valid
datasource (validity gives it a table identifier): when the current
fetch instance's bound `tableId` differs (strict inequality) from the
subscribing datasource's, return without touching the fetch; otherwise
push `update({filter})`. -/
def filterChangeHandler (f : Option GridFetchState) (dsTableId : String)
    (newFilter : List JsValue) : Option GridFetchState :=
  if fetchTableId f ≠ some dsTableId then f
  else f.map (fun st => { st with filter := newFilter })

/-- The sort-subscription handler: the same guard, then
`update({sortOrder: $sort.order || "ascending", sortColumn: $sort.column})`. -/
def sortChangeHandler (f : Option GridFetchState) (dsTableId : String)
    (s : SortState) : Option GridFetchState :=
  if fetchTableId f ≠ some dsTableId then f
  else f.map (fun st =>
    { st with
      sortOrder := if jsTruthy s.order then s.order else .str "ascending"
      sortColumn := s.column })

/-- **C7.** A filter- or sort-change event mutates the current fetch
instance exactly when that instance's bound datasource table identifier
equals the identifier of the datasource that installed the
subscription: on a match the fetch exists and receives the update, and
on a mismatch both handlers leave the fetch instance untouched. -/
theorem handlers_update_only_matching_fetch
    (f : Option GridFetchState) (dsTableId : String)
    (newFilter : List JsValue) (s : SortState) :
    (fetchTableId f = some dsTableId →
      ∃ st, f = some st ∧
        filterChangeHandler f dsTableId newFilter =
          some { st with filter := newFilter } ∧
        sortChangeHandler f dsTableId s =
          some { st with
            sortOrder := if jsTruthy s.order then s.order else .str "ascending"
            sortColumn := s.column }) ∧
    (fetchTableId f ≠ some dsTableId →
      filterChangeHandler f dsTableId newFilter = f ∧
      sortChangeHandler f dsTableId s = f) := by
  constructor
  · intro h
    match f with
    | none => simp [fetchTableId] at h
    | some st =>
      exact ⟨st, rfl, by simp [filterChangeHandler, h],
        by simp [sortChangeHandler, h]⟩
  · intro h
    exact ⟨by simp [filterChangeHandler, h], by simp [sortChangeHandler, h]⟩
